import Mathlib

/-!
Verification development for the Tello SDK example program (src/tello.py).

The program is embedded shallowly: every externally observable action of a
run (printing, nmcli subprocess invocations, socket creation, UDP datagram
traffic, sleeps, spawning the ffmpeg capture process, and signalling it to
terminate) is recorded as an `Event` in a trace, and a run is a pure
function from the command-line flags and an `Env` (the replies the drone
would deliver, the nmcli connection table, the filesystem contents) to a
trace together with an `Except Int Unit` result modelling normal completion
versus `sys.exit` with a code.  Byte strings are modelled as `String`
(bytes approximated by characters, which is exact for the ASCII data the
program handles).
-/

namespace Tello

/-- One externally observable action of a run of the program. -/
inductive Event where
  /-- A line printed to standard output. -/
  | msg (s : String)
  /-- An invocation of the nmcli binary with the given arguments
      (the bare availability check of haveNmcli has empty arguments). -/
  | nmcli (args : List String)
  /-- Creation of the UDP control socket and bind to local port 9000. -/
  | sockBind
  /-- sock.sendto of the encoded command to the drone address. -/
  | send (payload : String)
  /-- sock.recvfrom(1518) delivering a reply datagram. -/
  | recv (payload : String)
  /-- time.sleep for the given number of seconds. -/
  | sleep (units : Nat)
  /-- subprocess.Popen of the ffmpeg capture process writing to fname. -/
  | ffmpegStart (fname : String)
  /-- vidProc.communicate with the single byte q: writes the termination
      request to the capture process and waits for it to exit. -/
  | ffmpegSignalQ
  deriving DecidableEq

/-- The fixed command script, from the commandSequence list of the source. -/
def commandSequence : List String :=
  ["command", "streamon", "battery?", "speed?", "takeoff",
   "flip f", "cw 180", "forward 50", "cw 180", "land"]

/-- The synthetic reply used in simulate mode (resp = "sim ok"). -/
def simResp : String := "sim ok"

/-- The receive buffer size passed to sock.recvfrom. -/
def recvBufSize : Nat := 1518

/-- The reply text obtained from one recvfrom(1518) call: the reply datagram
truncated to the buffer size (bytes approximated by characters). -/
def recvResp (datagram : String) : String :=
  String.mk (datagram.data.take recvBufSize)

/-- One row of the terse nmcli -t con listing: name, uuid, type, device. -/
structure Con where
  name : String
  uuid : String
  typ : String
  dev : String
  deriving DecidableEq

/-- Does the needle occur at the head of the haystack. -/
def leadsWith : List Char → List Char → Bool
  | [], _ => true
  | _ :: _, [] => false
  | n :: ns, h :: hs => n == h && leadsWith ns hs

/-- Does the needle occur anywhere inside the haystack. -/
def hasSub (needle : List Char) : List Char → Bool
  | [] => leadsWith needle []
  | h :: hs => leadsWith needle (h :: hs) || hasSub needle hs

/-- The Python membership test "TELLO" in name from getWifiUUID. -/
def containsTello (name : String) : Bool :=
  hasSub "TELLO".data name.data

/-- The loop body of getWifiUUID: scan the connection rows front to back,
remembering in the accumulator the uuid of the first row whose name
contains the marker; a second such row aborts with exit code -1, and so
does reaching the end with no match.  The trace holds the lines printed. -/
def getWifiUUIDLoop : List Con → Option String → List Event × Except Int String
  | [], none => ([Event.msg "No Tello WiFi network found"], Except.error (-1))
  | [], some u => ([], Except.ok u)
  | c :: rest, acc =>
      if containsTello c.name then
        match acc with
        | some _ =>
            ([Event.msg "Multiple Tello WiFi networks found"], Except.error (-1))
        | none => getWifiUUIDLoop rest (some c.uuid)
      else getWifiUUIDLoop rest acc

/-- getWifiUUID of the source: one nmcli -t con invocation, then the scan. -/
def getWifiUUID (cons : List Con) : List Event × Except Int String :=
  let g := getWifiUUIDLoop cons none
  (Event.nmcli ["-t", "con"] :: g.1, g.2)

/-- The loop body of isConnected: a row matches when its uuid equals the
sought one and its device field is nonempty; each match prints a line and
sets the connected flag. -/
def isConnectedLoop (uuid : String) : List Con → Bool → List Event × Bool
  | [], connected => ([], connected)
  | c :: rest, connected =>
      if uuid == c.uuid && c.dev.length > 0 then
        let t := isConnectedLoop uuid rest true
        (Event.msg ("Connected to \x22" ++ c.name ++ "\x22") :: t.1, t.2)
      else isConnectedLoop uuid rest connected

/-- isConnected of the source: one nmcli -t con invocation, then the scan. -/
def isConnected (uuid : String) (cons : List Con) : List Event × Bool :=
  let t := isConnectedLoop uuid cons false
  (Event.nmcli ["-t", "con"] :: t.1, t.2)

/-- The environment a run interacts with: nmcli availability, the nmcli
connection table, the outcome of nmcli con up, the filesystem contents
(existing file names), and the successive reply datagrams the drone sends
(reply number i answers the i-th live command). -/
structure Env where
  nmcliAvailable : Bool
  cons : List Con
  conUpOk : Bool
  fs : List String
  replies : Nat → String

/-- Lines 81-97 of the source, entered only when useNmcli is true: resolve
the drone WiFi uuid, report it, and connect unless already connected. -/
def connectPhase (env : Env) : List Event × Except Int Unit :=
  let g := getWifiUUID env.cons
  match g.2 with
  | Except.error c => (g.1, Except.error c)
  | Except.ok uuid =>
      let t1 := g.1 ++ [Event.msg ("Drone WiFi: " ++ uuid)]
      let ic := isConnected uuid env.cons
      if ic.2 then
        (t1 ++ ic.1 ++ [Event.msg "Already connected to drone"], Except.ok ())
      else
        let t2 := t1 ++ ic.1 ++
          [Event.msg "Connecting to Drone...", Event.nmcli ["con", "up", uuid]]
        if env.conUpOk then (t2 ++ [Event.msg "  Connected"], Except.ok ())
        else (t2 ++ [Event.msg "  FAILED"], Except.error (-1))

/-- Lines 72-97 of the source: useNmcli is false when either flag is set;
otherwise the availability check runs (one bare nmcli invocation) and a
missing binary aborts with exit code -1; with nmcli available the connect
phase runs. -/
def nmPhase (disableNm simulate : Bool) (env : Env) : List Event × Except Int Unit :=
  if disableNm || simulate then ([], Except.ok ())
  else if env.nmcliAvailable then
    let t := connectPhase env
    (Event.nmcli [] :: t.1, t.2)
  else
    ([Event.nmcli [],
      Event.msg "Cannot find \x22nmcli\x22 to control NetworkManager"],
     Except.error (-1))

/-- The fixed stem of the capture file name (vidFnamePrefix). -/
def vidStem : String := "output"

/-- The candidate file name for a given counter value:
stem, then str(count), then the fixed extension. -/
def vidName (count : Nat) : String :=
  vidStem ++ toString count ++ ".h264"

/-- The probing while loop of lines 114-116: increment the counter while a
file of the candidate name exists.  The source loop terminates because the
finite filesystem cannot contain every candidate name; here the fuel
argument bounds the number of probes, and the theorems below show that fuel
fs.length + 1 suffices whenever a free name exists among the first
fs.length + 1 candidates. -/
def probeLoop (fs : List String) : Nat → Nat → Nat
  | 0, count => count
  | fuel + 1, count =>
      if fs.contains (vidName count) then probeLoop fs fuel (count + 1)
      else count

/-- The counter value at which the probing loop of lines 113-116 stops,
starting from 1. -/
def vidFnameCount (fs : List String) : Nat :=
  probeLoop fs (fs.length + 1) 1

/-- The reserved capture file name (vidFname of line 118). -/
def vidFname (fs : List String) : String :=
  vidName (vidFnameCount fs)

/-- The while loop of lines 120-151: pop the front command, print it, in
live mode send it and receive one reply (in simulate mode synthesize the
reply), print the reply, and in live mode react to the literal streamon
token by sleeping 5 seconds and spawning the capture process.  The index i
counts the replies consumed so far; the boolean tracks whether vidProc is
set.  The loop ends when the queue is empty. -/
def cmdLoop (simulate : Bool) (fname : String) (replies : Nat → String) :
    List String → Nat → Bool → List Event × Bool
  | [], _, vidProc => ([], vidProc)
  | cmd :: rest, i, vidProc =>
      let resp := if simulate then simResp else recvResp (replies i)
      let netEvs : List Event :=
        if simulate then []
        else [Event.send cmd, Event.recv (recvResp (replies i))]
      let iNext := if simulate then i else i + 1
      let startsVid := cmd == "streamon" && !simulate
      let streamEvs : List Event :=
        if startsVid then [Event.sleep 5, Event.ffmpegStart fname] else []
      let vidNext := if startsVid then true else vidProc
      let next := cmdLoop simulate fname replies rest iNext vidNext
      (Event.msg ("CMD : " ++ cmd) :: netEvs ++
         Event.msg ("RESP: " ++ resp) :: streamEvs ++ next.1,
       next.2)

/-- Lines 153-157: when a capture process is live, sleep the 2 second grace
delay, report, and signal the process to terminate, waiting for its exit;
with no capture process this is a no-op. -/
def shutdownPhase (vidProc : Bool) : List Event :=
  if vidProc then
    [Event.sleep 2, Event.msg "Closing video stream", Event.ffmpegSignalQ]
  else []

/-- The whole of main, generalized over the queue the loop drains (the
source initializes the queue from commandSequence): greeting, nmcli phase,
socket creation in live mode, capture-name reservation, the command loop,
and the shutdown phase. -/
def mainRun (disableNm simulate : Bool) (env : Env) (queue : List String) :
    List Event × Except Int Unit :=
  let t0 := [Event.msg "Tello Test Program"]
  let pn := nmPhase disableNm simulate env
  match pn.2 with
  | Except.error c => (t0 ++ pn.1, Except.error c)
  | Except.ok _ =>
      let tsock : List Event := if !simulate then [Event.sockBind] else []
      let fname := vidFname env.fs
      let lp := cmdLoop simulate fname env.replies queue 0 false
      (t0 ++ pn.1 ++ tsock ++ lp.1 ++ shutdownPhase lp.2, Except.ok ())

/-- The program as invoked: main run on the fixed commandSequence. -/
def telloMain (disableNm simulate : Bool) (env : Env) : List Event × Except Int Unit :=
  mainRun disableNm simulate env commandSequence

/-- Is the event a network datagram event (send or recv). -/
def Event.isNet : Event → Bool
  | Event.send _ => true
  | Event.recv _ => true
  | _ => false

/-- Is the event a send. -/
def Event.isSend : Event → Bool
  | Event.send _ => true
  | _ => false

/-- Is the event the creation of the control socket. -/
def Event.isSockBind : Event → Bool
  | Event.sockBind => true
  | _ => false

/-- Is the event an nmcli invocation. -/
def Event.isNmcliCall : Event → Bool
  | Event.nmcli _ => true
  | _ => false

/-- Is the event the spawn of the capture process. -/
def Event.isStart : Event → Bool
  | Event.ffmpegStart _ => true
  | _ => false

/-- Specification-side pattern, following the words of the spec: the
network events of a run are the commands in queue order, each send
immediately answered by the matching reply before the next send. -/
def sendRecvPattern (replies : Nat → String) : List String → Nat → List Event
  | [], _ => []
  | c :: rest, i =>
      Event.send c :: Event.recv (recvResp (replies i)) ::
        sendRecvPattern replies rest (i + 1)

/-- The trace the command loop produces in simulate mode: only the printed
command and fixed synthetic reply lines. -/
def simulateTrace : List String → List Event
  | [] => []
  | c :: rest =>
      Event.msg ("CMD : " ++ c) :: Event.msg ("RESP: " ++ simResp) ::
        simulateTrace rest

/-- The number of capture-process spawns in a trace. -/
def countStarts (t : List Event) : Nat :=
  t.countP (fun e => Event.isStart e)

/-- The number of occurrences of the streaming-enable token in a queue. -/
def streamonCount (q : List String) : Nat :=
  q.countP (fun c => c == "streamon")

/-- The number of connection rows whose name contains the device marker. -/
def countTello (cons : List Con) : Nat :=
  cons.countP (fun c => containsTello c.name)

/-- The counter r names the lowest-numbered unused candidate: it is at
least 1, its candidate name does not exist, and every smaller counter from
1 names an existing file. -/
def isLeastFreeCount (fs : List String) (r : Nat) : Prop :=
  1 ≤ r ∧ fs.contains (vidName r) = false ∧
    ∀ m, 1 ≤ m → m < r → fs.contains (vidName m) = true

/-- Some candidate name among the first fs.length + 1 is absent from the
filesystem (always true of a real filesystem, whose finitely many entries
cannot cover fs.length + 1 distinct candidate names). -/
def hasFreeSlot (fs : List String) : Prop :=
  ∃ n, 1 ≤ n ∧ n ≤ fs.length + 1 ∧ fs.contains (vidName n) = false

/-- A live environment with nothing on the filesystem and a fixed reply. -/
def envA : Env :=
  { nmcliAvailable := false, cons := [], conUpOk := true, fs := [],
    replies := fun _ => simResp }

/-- An environment whose nmcli connection table holds two profiles whose
names contain the device marker. -/
def envTwoTello : Env :=
  { nmcliAvailable := true,
    cons :=
      [{ name := "TELLO-C14A5E", uuid := "uuid-one",
         typ := "802-11-wireless", dev := "" },
       { name := "TELLO-99ZZ00", uuid := "uuid-two",
         typ := "802-11-wireless", dev := "" }],
    conUpOk := true, fs := [], replies := fun _ => simResp }

/-- A command whose encoding is larger than the 1518 byte receive buffer. -/
def bigCmd : String :=
  String.mk (List.replicate 1519 'a')

@[simp] theorem isNet_msg (s : String) : Event.isNet (Event.msg s) = false := rfl

@[simp] theorem isNet_nmcli (a : List String) : Event.isNet (Event.nmcli a) = false := rfl

@[simp] theorem isNet_sockBind : Event.isNet Event.sockBind = false := rfl

@[simp] theorem isNet_send (p : String) : Event.isNet (Event.send p) = true := rfl

@[simp] theorem isNet_recv (p : String) : Event.isNet (Event.recv p) = true := rfl

@[simp] theorem isNet_sleep (u : Nat) : Event.isNet (Event.sleep u) = false := rfl

@[simp] theorem isNet_start (f : String) : Event.isNet (Event.ffmpegStart f) = false := rfl

@[simp] theorem isNet_signal : Event.isNet Event.ffmpegSignalQ = false := rfl

@[simp] theorem isSend_msg (s : String) : Event.isSend (Event.msg s) = false := rfl

@[simp] theorem isSend_nmcli (a : List String) : Event.isSend (Event.nmcli a) = false := rfl

@[simp] theorem isSend_sockBind : Event.isSend Event.sockBind = false := rfl

@[simp] theorem isSend_send (p : String) : Event.isSend (Event.send p) = true := rfl

@[simp] theorem isSend_recv (p : String) : Event.isSend (Event.recv p) = false := rfl

@[simp] theorem isSend_sleep (u : Nat) : Event.isSend (Event.sleep u) = false := rfl

@[simp] theorem isSend_start (f : String) : Event.isSend (Event.ffmpegStart f) = false := rfl

@[simp] theorem isSend_signal : Event.isSend Event.ffmpegSignalQ = false := rfl

@[simp] theorem isNmcliCall_msg (s : String) : Event.isNmcliCall (Event.msg s) = false := rfl

@[simp] theorem isNmcliCall_nmcli (a : List String) : Event.isNmcliCall (Event.nmcli a) = true := rfl

@[simp] theorem isNmcliCall_sockBind : Event.isNmcliCall Event.sockBind = false := rfl

@[simp] theorem isNmcliCall_send (p : String) : Event.isNmcliCall (Event.send p) = false := rfl

@[simp] theorem isNmcliCall_recv (p : String) : Event.isNmcliCall (Event.recv p) = false := rfl

@[simp] theorem isNmcliCall_sleep (u : Nat) : Event.isNmcliCall (Event.sleep u) = false := rfl

@[simp] theorem isNmcliCall_start (f : String) : Event.isNmcliCall (Event.ffmpegStart f) = false := rfl

@[simp] theorem isNmcliCall_signal : Event.isNmcliCall Event.ffmpegSignalQ = false := rfl

@[simp] theorem isStart_msg (s : String) : Event.isStart (Event.msg s) = false := rfl

@[simp] theorem isStart_nmcli (a : List String) : Event.isStart (Event.nmcli a) = false := rfl

@[simp] theorem isStart_sockBind : Event.isStart Event.sockBind = false := rfl

@[simp] theorem isStart_send (p : String) : Event.isStart (Event.send p) = false := rfl

@[simp] theorem isStart_recv (p : String) : Event.isStart (Event.recv p) = false := rfl

@[simp] theorem isStart_sleep (u : Nat) : Event.isStart (Event.sleep u) = false := rfl

@[simp] theorem isStart_start (f : String) : Event.isStart (Event.ffmpegStart f) = true := rfl

@[simp] theorem isStart_signal : Event.isStart Event.ffmpegSignalQ = false := rfl

theorem cmdLoop_sim (fname : String) (replies : Nat → String) (q : List String)
    (i : Nat) (v : Bool) :
    cmdLoop true fname replies q i v = (simulateTrace q, v) := by
  induction q generalizing i v with
  | nil => rfl
  | cons c rest ih => simp [cmdLoop, simulateTrace, ih]

theorem mainRun_sim (d : Bool) (env : Env) (q : List String) :
    mainRun d true env q =
      (Event.msg "Tello Test Program" :: simulateTrace q, Except.ok ()) := by
  simp [mainRun, nmPhase, cmdLoop_sim, shutdownPhase]

theorem simulateTrace_nmcli (q : List String) :
    (simulateTrace q).countP (fun e => Event.isNmcliCall e) = 0 := by
  induction q with
  | nil => rfl
  | cons c rest ih =>
      simp [simulateTrace, List.countP_cons, ih]

/-- C6: on an empty queue the run terminates at once: in live mode the
trace holds only the greeting and the socket creation, in simulate mode
only the greeting; in both cases no command is sent, no capture process is
created, no sleep occurs, no termination signal is sent and no process is
waited on, and the run completes normally. -/
theorem c6_empty_queue (env : Env) :
    mainRun true false env [] =
        ([Event.msg "Tello Test Program", Event.sockBind], Except.ok ()) ∧
      mainRun true true env [] =
        ([Event.msg "Tello Test Program"], Except.ok ()) :=
  ⟨rfl, rfl⟩

/-- C7: in simulate mode, for every queue and either setting of the
no-network-manager flag, the whole trace is the greeting followed by the
printed command lines, each answered by the fixed synthetic reply: no
nmcli invocation, no socket creation or binding, no datagram, no capture
process and no file, and the run completes normally. -/
theorem c7_simulate_run (disableNm : Bool) (env : Env) (q : List String) :
    mainRun disableNm true env q =
      (Event.msg "Tello Test Program" :: simulateTrace q, Except.ok ()) :=
  mainRun_sim disableNm env q

/-- C10: the simulate flag alone bypasses the network-association step
entirely: with simulate set, no nmcli subprocess is ever invoked, not even
the availability check, whatever the no-network-manager flag is. -/
theorem c10_no_nmcli_in_simulate (disableNm : Bool) (env : Env) (q : List String) :
    ((mainRun disableNm true env q).1.countP (fun e => Event.isNmcliCall e)) = 0 := by
  rw [mainRun_sim]
  simp [List.countP_cons, simulateTrace_nmcli]

/-- C1: in live mode, the network events of the command loop are exactly
the alternation send, reply, send, reply in queue order: every command is
sent exactly once, front to back, never re-enqueued, and the reply to
command n is received before command n+1 is sent. -/
theorem c1_send_order (fname : String) (replies : Nat → String) (q : List String)
    (i : Nat) (v : Bool) :
    ((cmdLoop false fname replies q i v).1).filter (fun e => Event.isNet e) =
      sendRecvPattern replies q i := by
  induction q generalizing i v with
  | nil => rfl
  | cons c rest ih =>
      cases hc : c == "streamon" <;>
        simp [cmdLoop, sendRecvPattern, hc, ih]

theorem cmdLoop_filter_send (fname : String) (replies : Nat → String)
    (q : List String) (i : Nat) (v : Bool) :
    ((cmdLoop false fname replies q i v).1).filter (fun e => Event.isSend e) =
      q.map Event.send := by
  induction q generalizing i v with
  | nil => rfl
  | cons c rest ih =>
      cases hc : c == "streamon" <;> simp [cmdLoop, hc, ih]

theorem shutdownPhase_no_send (v : Bool) :
    (shutdownPhase v).filter (fun e => Event.isSend e) = [] := by
  cases v <;> rfl

/-- C9 amended: the send path performs no size validation at all: in live
mode every queue runs to normal completion whatever the encoded length of
its commands, and each command is transmitted verbatim, exactly once, in
order; the constant 1518 is only the size of the buffer handed to
recvfrom, which truncates replies. -/
theorem c9_no_size_check (env : Env) (q : List String) :
    (mainRun true false env q).2 = Except.ok () ∧
      ((mainRun true false env q).1).filter (fun e => Event.isSend e) =
        q.map Event.send ∧
      recvBufSize = 1518 := by
  refine ⟨rfl, ?_, rfl⟩
  simp [mainRun, nmPhase, List.filter_append, cmdLoop_filter_send,
    shutdownPhase_no_send]

theorem cmdLoop_append (fname : String) (replies : Nat → String) (a b : List String)
    (i : Nat) (v : Bool) :
    cmdLoop false fname replies (a ++ b) i v =
      ((cmdLoop false fname replies a i v).1 ++
         (cmdLoop false fname replies b (i + a.length)
           (cmdLoop false fname replies a i v).2).1,
       (cmdLoop false fname replies b (i + a.length)
         (cmdLoop false fname replies a i v).2).2) := by
  induction a generalizing i v with
  | nil => simp [cmdLoop]
  | cons c rest ih =>
      simp [cmdLoop, ih, Nat.add_comm, Nat.add_left_comm, Nat.add_assoc]

theorem cmdLoop_vid_stable (fname : String) (replies : Nat → String)
    (q : List String) (i : Nat) (v : Bool) :
    "streamon" ∉ q → (cmdLoop false fname replies q i v).2 = v := by
  induction q generalizing i v with
  | nil => intro _; rfl
  | cons c rest ih =>
      intro h
      have h1 : c ≠ "streamon" := by
        intro e
        exact h (by simp [e])
      have h2 : "streamon" ∉ rest := by
        intro m
        exact h (by simp [m])
      have hc : (c == "streamon") = false := beq_eq_false_iff_ne.mpr h1
      simp [cmdLoop, hc, ih _ _ h2]

theorem cmdLoop_starts (fname : String) (replies : Nat → String) (q : List String)
    (i : Nat) (v : Bool) :
    countStarts (cmdLoop false fname replies q i v).1 = streamonCount q := by
  simp only [countStarts, streamonCount]
  induction q generalizing i v with
  | nil => rfl
  | cons c rest ih =>
      cases hc : c == "streamon" <;>
        simp [cmdLoop, List.countP_cons, List.countP_append, hc, ih]

/-- C2 counterexample: in live mode, a queue that carries the streamon
token twice makes the loop spawn the capture process twice, so the claim
that the start is never invoked more than once per run even when the token
is repeated is false of the code. -/
theorem c2_counterexample :
    countStarts (cmdLoop false (vidName 1) (fun _ => simResp)
      ["streamon", "streamon"] 0 false).1 = 2 := by
  decide

/-- C2 amended: in live mode the capture process is spawned exactly once
per occurrence of the streamon token; in particular, writing the queue as
q1 ++ streamon :: q2 with no streamon in q1, no spawn happens during q1,
one spawn happens immediately after the reply to that first streamon and
the 5 second settle delay, and afterwards one further spawn per occurrence
in q2; so the spawn is exactly one when the token occurs exactly once. -/
theorem c2_per_occurrence (fname : String) (replies : Nat → String)
    (q1 q2 : List String) (h : "streamon" ∉ q1) :
    (cmdLoop false fname replies (q1 ++ "streamon" :: q2) 0 false).1 =
      (cmdLoop false fname replies q1 0 false).1 ++
        Event.msg "CMD : streamon" :: Event.send "streamon" ::
        Event.recv (recvResp (replies q1.length)) ::
        Event.msg ("RESP: " ++ recvResp (replies q1.length)) ::
        Event.sleep 5 :: Event.ffmpegStart fname ::
        (cmdLoop false fname replies q2 (q1.length + 1) true).1 ∧
      countStarts (cmdLoop false fname replies q1 0 false).1 = 0 ∧
      countStarts (cmdLoop false fname replies (q1 ++ "streamon" :: q2) 0 false).1 =
        1 + streamonCount q2 := by
  refine ⟨?_, ?_, ?_⟩
  · rw [cmdLoop_append]
    rw [cmdLoop_vid_stable fname replies q1 0 false h]
    simp [cmdLoop]
  · rw [cmdLoop_starts]
    simp only [streamonCount, List.countP_eq_zero]
    intro a ha
    have hne : a ≠ "streamon" := fun e => h (e ▸ ha)
    simp [hne]
  · rw [cmdLoop_starts]
    have h0 : streamonCount q1 = 0 := by
      simp only [streamonCount, List.countP_eq_zero]
      intro a ha
      have hne : a ≠ "streamon" := fun e => h (e ▸ ha)
      simp [hne]
    simp only [streamonCount, List.countP_append, List.countP_cons] at h0 ⊢
    simp [h0]
    omega

/-- Witness for the amended C2 at a concrete queue with one streamon. -/
theorem c2_witness :
    ("streamon" ∉ (["command"] : List String)) ∧
      ((cmdLoop false (vidName 1) (fun _ => simResp)
          ["command", "streamon", "land"] 0 false).1 =
        (cmdLoop false (vidName 1) (fun _ => simResp) ["command"] 0 false).1 ++
          Event.msg "CMD : streamon" :: Event.send "streamon" ::
          Event.recv (recvResp simResp) ::
          Event.msg ("RESP: " ++ recvResp simResp) ::
          Event.sleep 5 :: Event.ffmpegStart (vidName 1) ::
          (cmdLoop false (vidName 1) (fun _ => simResp) ["land"] 2 true).1 ∧
        countStarts (cmdLoop false (vidName 1) (fun _ => simResp)
          ["command"] 0 false).1 = 0 ∧
        countStarts (cmdLoop false (vidName 1) (fun _ => simResp)
          ["command", "streamon", "land"] 0 false).1 = 1 + streamonCount ["land"]) :=
  ⟨by decide,
    c2_per_occurrence (vidName 1) (fun _ => simResp) ["command"] ["land"] (by decide)⟩

theorem gwLoop_some (cons : List Con) (u : String) :
    1 ≤ countTello cons →
    getWifiUUIDLoop cons (some u) =
      ([Event.msg "Multiple Tello WiFi networks found"], Except.error (-1)) := by
  induction cons generalizing u with
  | nil => intro h; simp [countTello] at h
  | cons c rest ih =>
      intro h
      cases hc : containsTello c.name
      · have h1 : 1 ≤ countTello rest := by
          simp only [countTello, List.countP_cons, hc] at h ⊢
          simpa using h
        simp [getWifiUUIDLoop, hc, ih u h1]
      · simp [getWifiUUIDLoop, hc]

theorem gwLoop_two (cons : List Con) :
    2 ≤ countTello cons →
    getWifiUUIDLoop cons none =
      ([Event.msg "Multiple Tello WiFi networks found"], Except.error (-1)) := by
  induction cons with
  | nil => intro h; simp [countTello] at h
  | cons c rest ih =>
      intro h
      cases hc : containsTello c.name
      · have h1 : 2 ≤ countTello rest := by
          simp only [countTello, List.countP_cons, hc] at h ⊢
          simpa using h
        simp [getWifiUUIDLoop, hc, ih h1]
      · have hsucc : 2 ≤ countTello rest + 1 := by
          simpa [countTello, List.countP_cons, hc] using h
        have h1 : 1 ≤ countTello rest := by omega
        simp [getWifiUUIDLoop, hc, gwLoop_some rest c.uuid h1]

/-- C8: when the connection table holds at least two profiles whose names
contain the device marker, the run aborts at once with exit code -1: the
whole trace is the greeting, the availability check, the single nmcli
listing and the diagnostic, so the control socket is never created and no
datagram is ever sent. -/
theorem c8_multiple_profiles (env : Env) (q : List String)
    (hn : env.nmcliAvailable = true) (h2 : 2 ≤ countTello env.cons) :
    mainRun false false env q =
      ([Event.msg "Tello Test Program", Event.nmcli [], Event.nmcli ["-t", "con"],
        Event.msg "Multiple Tello WiFi networks found"], Except.error (-1)) ∧
      (mainRun false false env q).1.countP
        (fun e => Event.isSend e || Event.isSockBind e) = 0 := by
  have hrun : mainRun false false env q =
      ([Event.msg "Tello Test Program", Event.nmcli [], Event.nmcli ["-t", "con"],
        Event.msg "Multiple Tello WiFi networks found"], Except.error (-1)) := by
    simp [mainRun, nmPhase, connectPhase, getWifiUUID, hn, gwLoop_two env.cons h2]
  refine ⟨hrun, ?_⟩
  rw [hrun]
  rfl

/-- Witness for C8 at a concrete table with two marker profiles. -/
theorem c8_witness :
    envTwoTello.nmcliAvailable = true ∧ 2 ≤ countTello envTwoTello.cons ∧
      (mainRun false false envTwoTello [] =
        ([Event.msg "Tello Test Program", Event.nmcli [], Event.nmcli ["-t", "con"],
          Event.msg "Multiple Tello WiFi networks found"], Except.error (-1)) ∧
        (mainRun false false envTwoTello []).1.countP
          (fun e => Event.isSend e || Event.isSockBind e) = 0) :=
  ⟨rfl, by decide, c8_multiple_profiles envTwoTello [] rfl (by decide)⟩

set_option maxRecDepth 10000 in
/-- C9 counterexample: a command whose encoding is larger than the 1518
byte receive buffer is transmitted as-is and the run completes normally:
no ProtocolError or any other failure exists on the send path. -/
theorem c9_counterexample :
    recvBufSize < bigCmd.utf8ByteSize ∧
      (mainRun true false envA [bigCmd]).2 = Except.ok () ∧
      Event.send bigCmd ∈ (mainRun true false envA [bigCmd]).1 := by
  refine ⟨by decide, rfl, ?_⟩
  simp [mainRun, nmPhase, cmdLoop, shutdownPhase]

theorem probeLoop_least (fs : List String) (fuel : Nat) :
    ∀ start, (∃ n, start ≤ n ∧ n < start + fuel ∧ fs.contains (vidName n) = false) →
      start ≤ probeLoop fs fuel start ∧
        fs.contains (vidName (probeLoop fs fuel start)) = false ∧
        ∀ m, start ≤ m → m < probeLoop fs fuel start →
          fs.contains (vidName m) = true := by
  induction fuel with
  | zero =>
      intro start h
      exfalso
      obtain ⟨n, h1, h2, _⟩ := h
      omega
  | succ fuel ih =>
      intro start h
      cases hc : fs.contains (vidName start)
      · have he : probeLoop fs (fuel + 1) start = start := by
          simp only [probeLoop]
          rw [hc]
          simp
        rw [he]
        refine ⟨Nat.le_refl _, hc, ?_⟩
        intro m hm1 hm2
        omega
      · have he : probeLoop fs (fuel + 1) start = probeLoop fs fuel (start + 1) := by
          simp only [probeLoop]
          rw [hc]
          simp
        obtain ⟨n, h1, h2, h3⟩ := h
        have hne : n ≠ start := by
          intro e
          rw [e, hc] at h3
          exact Bool.noConfusion h3
        obtain ⟨g1, g2, g3⟩ :=
          ih (start + 1) ⟨n, by omega, by omega, h3⟩
        rw [he]
        refine ⟨by omega, g2, ?_⟩
        intro m hm1 hm2
        by_cases hm : m = start
        · rw [hm]
          exact hc
        · exact g3 m (by omega) hm2

theorem vidFnameCount_least (fs : List String) (h : hasFreeSlot fs) :
    isLeastFreeCount fs (vidFnameCount fs) := by
  obtain ⟨n, h1, h2, h3⟩ := h
  obtain ⟨g1, g2, g3⟩ :=
    probeLoop_least fs (fs.length + 1) 1 ⟨n, h1, by omega, h3⟩
  exact ⟨g1, g2, g3⟩

/-- C4: the name reservation is a pure function of the filesystem contents
that returns the candidate of the smallest counter, starting at 1, whose
file does not exist: the returned counter is at least 1, its candidate name
is absent, every smaller candidate from 1 is present, and the returned path
is the stem followed by the counter and the extension, so no existing file
of that shape is ever overwritten. -/
theorem c4_reserve_least (fs : List String) (h : hasFreeSlot fs) :
    isLeastFreeCount fs (vidFnameCount fs) ∧
      vidFname fs = vidName (vidFnameCount fs) :=
  ⟨vidFnameCount_least fs h, rfl⟩

/-- Witness for C4 on a filesystem holding the first candidate and an
unrelated file. -/
theorem c4_witness :
    hasFreeSlot [vidName 1, "junk"] ∧
      (isLeastFreeCount [vidName 1, "junk"] (vidFnameCount [vidName 1, "junk"]) ∧
        vidFname [vidName 1, "junk"] = vidName (vidFnameCount [vidName 1, "junk"])) :=
  ⟨⟨2, by decide⟩, c4_reserve_least [vidName 1, "junk"] ⟨2, by decide⟩⟩

/-- C5: reserving twice against an unchanged filesystem yields the same
path (the reservation is a pure function); and after the returned path is
created, reserving again yields the lowest-numbered candidate free on the
updated filesystem, whose counter is strictly greater than the first. -/
theorem c5_reserve_idempotent (fs : List String) (h : hasFreeSlot fs)
    (h2 : hasFreeSlot (vidName (vidFnameCount fs) :: fs)) :
    vidFname fs = vidFname fs ∧
      isLeastFreeCount (vidName (vidFnameCount fs) :: fs)
        (vidFnameCount (vidName (vidFnameCount fs) :: fs)) ∧
      vidFnameCount fs < vidFnameCount (vidName (vidFnameCount fs) :: fs) := by
  refine ⟨rfl, vidFnameCount_least _ h2, ?_⟩
  obtain ⟨a1, a2, a3⟩ := vidFnameCount_least fs h
  obtain ⟨b1, b2, b3⟩ := vidFnameCount_least _ h2
  have hsr : vidFnameCount (vidName (vidFnameCount fs) :: fs) ≠ vidFnameCount fs := by
    intro e
    rw [e] at b2
    simp [List.contains_cons] at b2
  have hrs : vidFnameCount fs ≤ vidFnameCount (vidName (vidFnameCount fs) :: fs) := by
    by_contra hlt
    push_neg at hlt
    have hin := a3 _ b1 hlt
    simp at hin
    simp [List.contains_cons] at b2
    exact b2.2 hin
  omega

/-- Witness for C5 starting from the empty filesystem. -/
theorem c5_witness :
    hasFreeSlot ([] : List String) ∧
      hasFreeSlot (vidName (vidFnameCount ([] : List String)) :: []) ∧
      (vidFname [] = vidFname [] ∧
        isLeastFreeCount (vidName (vidFnameCount ([] : List String)) :: [])
          (vidFnameCount (vidName (vidFnameCount ([] : List String)) :: [])) ∧
        vidFnameCount ([] : List String) <
          vidFnameCount (vidName (vidFnameCount ([] : List String)) :: [])) :=
  ⟨⟨1, by decide⟩, ⟨2, by decide⟩,
    c5_reserve_idempotent [] ⟨1, by decide⟩ ⟨2, by decide⟩⟩

/-- C3: a live run of the queue command, streamon, land produces exactly
this trace: each command is sent and answered in turn; after the streamon
reply come the 5 second settle delay and the spawn of the capture process
on the reserved name; after the land reply the queue is empty, the 2 second
grace delay elapses, the capture process is sent the single byte q on its
standard input and is waited on; the run then completes normally.  The
reserved name is the lowest-numbered free candidate. -/
theorem c3_scenario_live (env : Env) (h : hasFreeSlot env.fs) :
    mainRun true false env ["command", "streamon", "land"] =
      ([Event.msg "Tello Test Program", Event.sockBind,
        Event.msg "CMD : command", Event.send "command",
        Event.recv (recvResp (env.replies 0)),
        Event.msg ("RESP: " ++ recvResp (env.replies 0)),
        Event.msg "CMD : streamon", Event.send "streamon",
        Event.recv (recvResp (env.replies 1)),
        Event.msg ("RESP: " ++ recvResp (env.replies 1)),
        Event.sleep 5, Event.ffmpegStart (vidFname env.fs),
        Event.msg "CMD : land", Event.send "land",
        Event.recv (recvResp (env.replies 2)),
        Event.msg ("RESP: " ++ recvResp (env.replies 2)),
        Event.sleep 2, Event.msg "Closing video stream", Event.ffmpegSignalQ],
       Except.ok ()) ∧
      isLeastFreeCount env.fs (vidFnameCount env.fs) := by
  refine ⟨?_, vidFnameCount_least env.fs h⟩
  rfl

/-- Witness for C3 in the concrete live environment. -/
theorem c3_witness :
    hasFreeSlot envA.fs ∧
      (mainRun true false envA ["command", "streamon", "land"] =
        ([Event.msg "Tello Test Program", Event.sockBind,
          Event.msg "CMD : command", Event.send "command",
          Event.recv (recvResp (envA.replies 0)),
          Event.msg ("RESP: " ++ recvResp (envA.replies 0)),
          Event.msg "CMD : streamon", Event.send "streamon",
          Event.recv (recvResp (envA.replies 1)),
          Event.msg ("RESP: " ++ recvResp (envA.replies 1)),
          Event.sleep 5, Event.ffmpegStart (vidFname envA.fs),
          Event.msg "CMD : land", Event.send "land",
          Event.recv (recvResp (envA.replies 2)),
          Event.msg ("RESP: " ++ recvResp (envA.replies 2)),
          Event.sleep 2, Event.msg "Closing video stream", Event.ffmpegSignalQ],
         Except.ok ()) ∧
        isLeastFreeCount envA.fs (vidFnameCount envA.fs)) :=
  ⟨⟨1, by decide⟩, c3_scenario_live envA ⟨1, by decide⟩⟩

end Tello
